import Mathlib

/-!
Shallow embedding of the TradingView-Screener query builder
(`src/tradingview_screener/column.py` and `src/tradingview_screener/query.py`).

Python dict values that appear as predicate operands are modelled by `SVal`
(string / number / None); the `right` field of a predicate is either a scalar
or a flat list of scalars (`RightV`), exactly the shapes `column.py` builds.
The boolean combinators `And`/`Or` inspect dict keys at runtime, so for them
the dicts are modelled untyped as `JVal` (a JSON-like tree).  Mutable Python
lists/dicts that can be aliased between builders (`range`, `symbols`) live in
an explicit store `PyState`, and builder methods pass the store through.
-/

namespace TVS

/-- Scalar Python values used as predicate operands: `str`, numbers (modelled
as `Rat`), and `None`. -/
inductive SVal where
  | str (s : String)
  | num (q : Rat)
  | null
deriving DecidableEq

/-- The `right` field of a compiled predicate: a scalar or a flat list of
scalars, the only shapes produced by `column.py`. -/
inductive RightV where
  | scalar (v : SVal)
  | vlist (xs : List SVal)
deriving DecidableEq

/-- `Column.__init__` stores the given name unchanged (`self.name = name`). -/
structure Column where
  name : String
deriving DecidableEq

/-- An argument passed to a `Column` operator: either another `Column` or a
plain value (`column.py` accepts both). -/
inductive ColOperand where
  | col (c : Column)
  | val (v : SVal)
deriving DecidableEq

/-- The `FilterOperationDict` TypedDict of `query.py`:
`{'left': ..., 'operation': ..., 'right': ...}`. -/
structure FilterOperationDict where
  left : String
  operation : String
  right : RightV
deriving DecidableEq

/-- `Column._extract_name`: returns `obj.name` if `obj` is a `Column`, else
`obj` itself. -/
def Column._extract_name : ColOperand → SVal
  | .col c => .str c.name
  | .val v => v

def Column.gt (self : Column) (other : ColOperand) : FilterOperationDict :=
  { left := self.name, operation := "greater", right := .scalar (Column._extract_name other) }

def Column.ge (self : Column) (other : ColOperand) : FilterOperationDict :=
  { left := self.name, operation := "egreater", right := .scalar (Column._extract_name other) }

def Column.lt (self : Column) (other : ColOperand) : FilterOperationDict :=
  { left := self.name, operation := "less", right := .scalar (Column._extract_name other) }

def Column.le (self : Column) (other : ColOperand) : FilterOperationDict :=
  { left := self.name, operation := "eless", right := .scalar (Column._extract_name other) }

/-- `Column.__eq__`: builds a predicate dict, never a boolean. -/
def Column.eq (self : Column) (other : ColOperand) : FilterOperationDict :=
  { left := self.name, operation := "equal", right := .scalar (Column._extract_name other) }

/-- `Column.__ne__`: builds a predicate dict, never a boolean. -/
def Column.ne (self : Column) (other : ColOperand) : FilterOperationDict :=
  { left := self.name, operation := "nequal", right := .scalar (Column._extract_name other) }

def Column.crosses (self : Column) (other : ColOperand) : FilterOperationDict :=
  { left := self.name, operation := "crosses", right := .scalar (Column._extract_name other) }

def Column.crosses_above (self : Column) (other : ColOperand) : FilterOperationDict :=
  { left := self.name, operation := "crosses_above", right := .scalar (Column._extract_name other) }

def Column.crosses_below (self : Column) (other : ColOperand) : FilterOperationDict :=
  { left := self.name, operation := "crosses_below", right := .scalar (Column._extract_name other) }

def Column.between (self : Column) (left right : ColOperand) : FilterOperationDict :=
  { left := self.name, operation := "in_range",
    right := .vlist [Column._extract_name left, Column._extract_name right] }

def Column.not_between (self : Column) (left right : ColOperand) : FilterOperationDict :=
  { left := self.name, operation := "not_in_range",
    right := .vlist [Column._extract_name left, Column._extract_name right] }

def Column.isin (self : Column) (values : List SVal) : FilterOperationDict :=
  { left := self.name, operation := "in_range", right := .vlist values }

def Column.not_in (self : Column) (values : List SVal) : FilterOperationDict :=
  { left := self.name, operation := "not_in_range", right := .vlist values }

def Column.has (self : Column) (values : List SVal) : FilterOperationDict :=
  { left := self.name, operation := "has", right := .vlist values }

def Column.has_none_of (self : Column) (values : List SVal) : FilterOperationDict :=
  { left := self.name, operation := "has_none_of", right := .vlist values }

/-- `Column.above_pct(column, pct)`: takes exactly one threshold. -/
def Column.above_pct (self : Column) (column : ColOperand) (pct : Rat) : FilterOperationDict :=
  { left := self.name, operation := "above%",
    right := .vlist [Column._extract_name column, .num pct] }

/-- `Column.below_pct(column, pct)`: takes exactly one threshold. -/
def Column.below_pct (self : Column) (column : ColOperand) (pct : Rat) : FilterOperationDict :=
  { left := self.name, operation := "below%",
    right := .vlist [Column._extract_name column, .num pct] }

/-- `Column.between_pct(column, pct1, pct2=None)`: builds
`[column, pct1, pct2]` in caller order (Python inserts `None` when `pct2` is
absent). -/
def Column.between_pct (self : Column) (column : ColOperand) (pct1 : Rat)
    (pct2 : Option Rat) : FilterOperationDict :=
  { left := self.name, operation := "in_range%",
    right := .vlist [Column._extract_name column, .num pct1,
      match pct2 with
      | some p => .num p
      | none => .null] }

/-- `Column.not_between_pct(column, pct1, pct2=None)`. -/
def Column.not_between_pct (self : Column) (column : ColOperand) (pct1 : Rat)
    (pct2 : Option Rat) : FilterOperationDict :=
  { left := self.name, operation := "not_in_range%",
    right := .vlist [Column._extract_name column, .num pct1,
      match pct2 with
      | some p => .num p
      | none => .null] }

def Column.like (self : Column) (other : ColOperand) : FilterOperationDict :=
  { left := self.name, operation := "match", right := .scalar (Column._extract_name other) }

/-- Untyped JSON-like model of Python dict values, used where the code
inspects dict keys at runtime (`_impl_and_or_chaining`, `where2`). -/
inductive JVal where
  | null
  | jbool (b : Bool)
  | jstr (s : String)
  | jnum (q : Rat)
  | jarr (xs : List JVal)
  | jobj (kvs : List (String × JVal))

/-- Key membership test on a JSON object (the Python `'left' in expr`). -/
def JVal.hasKey (j : JVal) (k : String) : Bool :=
  match j with
  | .jobj kvs => kvs.any (fun kv => kv.1 == k)
  | _ => false

/-- Key lookup on a JSON object (the Python `expr['operation']`). -/
def JVal.get (j : JVal) (k : String) : Option JVal :=
  match j with
  | .jobj kvs => (kvs.find? (fun kv => kv.1 == k)).map (fun kv => kv.2)
  | _ => none

def SVal.toJVal : SVal → JVal
  | .str s => .jstr s
  | .num q => .jnum q
  | .null => .null

def RightV.toJVal : RightV → JVal
  | .scalar v => v.toJVal
  | .vlist xs => .jarr (xs.map SVal.toJVal)

/-- The dict a `FilterOperationDict` denotes, for feeding the combinators. -/
def FilterOperationDict.toJVal (f : FilterOperationDict) : JVal :=
  .jobj [("left", .jstr f.left), ("operation", .jstr f.operation),
    ("right", f.right.toJVal)]

/-- `_impl_and_or_chaining`: wraps every expression carrying a `left` key as
`{'expression': expr}`, passes every other expression (an `OperationDict`)
through unchanged, and returns
`{'operation': {'operator': operator, 'operands': lst}}`. -/
def _impl_and_or_chaining (expressions : List JVal) (operator : String) : JVal :=
  .jobj [("operation", .jobj [("operator", .jstr operator),
    ("operands", .jarr (expressions.map fun expr =>
      if expr.hasKey "left" then .jobj [("expression", expr)] else expr))])]

def And (expressions : List JVal) : JVal :=
  _impl_and_or_chaining expressions "and"

def Or (expressions : List JVal) : JVal :=
  _impl_and_or_chaining expressions "or"

/-- Modelled from the spec: the constant `URL` lives in
`tradingview_screener/constants.py`, which is absent from the sources; spec
section 6 gives the template `https://<host>/<market-or-"global">/scan`, and the
host matches the default `https://scanner.tradingview.com/america/scan`
hardcoded in `Query.__init__`.  `URL_format m` is `URL.format(market=m)`. -/
def URL_format (market : String) : String :=
  "https://scanner.tradingview.com/" ++ market ++ "/scan"

def DEFAULT_RANGE : List Int := [0, 50]

/-- The `SortByDict` TypedDict (`nullsFirst` is optional). -/
structure SortByDict where
  sortBy : String
  sortOrder : String
  nullsFirst : Option Bool
deriving DecidableEq

/-- The `symbols` sub-dict: `query` models the `{'types': [...]}` entry by its
list, `tickers` and `symbolset` are the optional keys set by `set_tickers` /
`set_index`. -/
structure SymbolsDict where
  query : Option (List String)
  tickers : Option (List String)
  symbolset : Option (List String)
deriving DecidableEq

/-- The key bindings of the `self.query` dict.  The two containers that the
code mutates in place after they may have become shared between builders
(`range` via `offset`/`limit`, `symbols` via `set_tickers`/`set_index`) are
stored as addresses into `PyState`; all other keys are only ever rebound to
freshly built values, so they are held by value. -/
structure QueryData where
  markets : Option (List String)
  symbols : Option Nat
  options : Option (List (String × String))
  columns : Option (List String)
  filter : Option (List FilterOperationDict)
  filter2 : Option JVal
  sort : Option SortByDict
  preset : Option String
  range : Option Nat

/-- The store of mutable Python list/dict objects reachable from builders. -/
structure PyState where
  rangeCells : List (List Int)
  symCells : List SymbolsDict

def PyState.allocRange (st : PyState) (cell : List Int) : Nat × PyState :=
  (st.rangeCells.length, { st with rangeCells := st.rangeCells ++ [cell] })

def PyState.allocSym (st : PyState) (cell : SymbolsDict) : Nat × PyState :=
  (st.symCells.length, { st with symCells := st.symCells ++ [cell] })

def PyState.getRange (st : PyState) (a : Nat) : List Int :=
  st.rangeCells.getD a []

def PyState.getSym (st : PyState) (a : Nat) : SymbolsDict :=
  st.symCells.getD a { query := none, tickers := none, symbolset := none }

def PyState.setRange (st : PyState) (a : Nat) (cell : List Int) : PyState :=
  { st with rangeCells := st.rangeCells.set a cell }

def PyState.setSym (st : PyState) (a : Nat) (cell : SymbolsDict) : PyState :=
  { st with symCells := st.symCells.set a cell }

/-- A builder: the `self.query` dict bindings plus `self.url`. -/
structure Query where
  query : QueryData
  url : String

/-- `Query.__init__`: allocates the fresh `range` list and `symbols` dict and
binds the default keys. -/
def Query.init (st : PyState) : Query × PyState :=
  let (ra, st1) := st.allocRange DEFAULT_RANGE
  let (sa, st2) := st1.allocSym { query := some [], tickers := some [], symbolset := none }
  ({ query :=
      { markets := some ["america"],
        symbols := some sa,
        options := some [("lang", "en")],
        columns := some ["name", "close", "volume", "market_cap_basic"],
        filter := none,
        filter2 := none,
        sort := some { sortBy := "Value.Traded", sortOrder := "desc", nullsFirst := none },
        preset := none,
        range := some ra },
     url := "https://scanner.tradingview.com/america/scan" }, st2)

/-- `Query.set_markets`: one market routes to its dedicated endpoint, zero or
several to the global one; either way `markets` is rebound to the given list.
Nothing else in the dict is touched. -/
def Query.set_markets (q : Query) (st : PyState) (markets : List String) :
    Query × PyState :=
  match markets with
  | [market] =>
    ({ query := { q.query with markets := some [market] }, url := URL_format market }, st)
  | _ =>
    ({ query := { q.query with markets := some markets }, url := URL_format "global" }, st)

/-- `self.query.setdefault('symbols', {})`: returns the address of the bound
symbols dict, allocating an empty one only when the key is absent. -/
def Query.symbolsSetdefault (q : Query) (st : PyState) : Nat × Query × PyState :=
  match q.query.symbols with
  | some a => (a, q, st)
  | none =>
    let (a, st') := st.allocSym { query := none, tickers := none, symbolset := none }
    (a, { q with query := { q.query with symbols := some a } }, st')

/-- `Query.set_tickers`: pops `markets`, rebinds `tickers` inside the (shared)
symbols dict in place, and routes to the global endpoint. -/
def Query.set_tickers (q : Query) (st : PyState) (tickers : List String) :
    Query × PyState :=
  let q1 : Query := { q with query := { q.query with markets := none } }
  let (a, q2, st1) := q1.symbolsSetdefault st
  let st2 := st1.setSym a { st1.getSym a with tickers := some tickers }
  ({ q2 with url := URL_format "global" }, st2)

/-- `Query.set_index`: pops `markets`, setdefaults `preset`, rebinds
`symbolset` inside the (shared) symbols dict in place, and routes to the
global endpoint. -/
def Query.set_index (q : Query) (st : PyState) (indexes : List String) :
    Query × PyState :=
  let q1 : Query := { q with query := { q.query with markets := none } }
  let q2 : Query := { q1 with query := { q1.query with
    preset := some (q1.query.preset.getD "index_components_market_pages") } }
  let (a, q3, st1) := q2.symbolsSetdefault st
  let st2 := st1.setSym a { st1.getSym a with symbolset := some indexes }
  ({ q3 with url := URL_format "global" }, st2)

/-- A `Column | str` argument as accepted by `select` and `order_by`. -/
inductive ColumnOrStr where
  | col (c : Column)
  | str (s : String)
deriving DecidableEq

def ColumnOrStr.name : ColumnOrStr → String
  | .col c => c.name
  | .str s => (Column.mk s).name

/-- `Query.select`: rebinds `columns` to the list of resolved names. -/
def Query.select (q : Query) (st : PyState) (columns : List ColumnOrStr) :
    Query × PyState :=
  ({ q with query := { q.query with columns := some (columns.map ColumnOrStr.name) } }, st)

/-- `Query.where`: rebinds `filter` to the given predicate list. -/
def Query.where' (q : Query) (st : PyState) (expressions : List FilterOperationDict) :
    Query × PyState :=
  ({ q with query := { q.query with filter := some expressions } }, st)

/-- `Query.where2`: stores `operation['operation']` under `filter2`.  When the
key is absent Python raises a `KeyError` before any assignment; combinator
outputs always carry the key, so that branch leaves the builder unchanged
here. -/
def Query.where2 (q : Query) (st : PyState) (operation : JVal) : Query × PyState :=
  match operation.get "operation" with
  | some v => ({ q with query := { q.query with filter2 := some v } }, st)
  | none => (q, st)

/-- `Query.order_by`: rebinds `sort` to a freshly built dict. -/
def Query.order_by (q : Query) (st : PyState) (column : ColumnOrStr)
    (ascending : Bool) (nulls_first : Bool) : Query × PyState :=
  let dct : SortByDict :=
    { sortBy := column.name,
      sortOrder := if ascending then "asc" else "desc",
      nullsFirst := some nulls_first }
  ({ q with query := { q.query with sort := some dct } }, st)

/-- `self.query.setdefault('range', DEFAULT_RANGE.copy())`: returns the address
of the bound range list, allocating a fresh copy of the default only when the
key is absent. -/
def Query.rangeSetdefault (q : Query) (st : PyState) : Nat × Query × PyState :=
  match q.query.range with
  | some a => (a, q, st)
  | none =>
    let (a, st') := st.allocRange DEFAULT_RANGE
    (a, { q with query := { q.query with range := some a } }, st')

/-- `Query.offset`: mutates index 0 of the (possibly shared) range list in
place. -/
def Query.offset (q : Query) (st : PyState) (offset : Int) : Query × PyState :=
  let (a, q', st') := q.rangeSetdefault st
  (q', st'.setRange a ((st'.getRange a).set 0 offset))

/-- `Query.limit`: mutates index 1 of the (possibly shared) range list in
place. -/
def Query.limit (q : Query) (st : PyState) (limit : Int) : Query × PyState :=
  let (a, q', st') := q.rangeSetdefault st
  (q', st'.setRange a ((st'.getRange a).set 1 limit))

/-- `Query.copy`: `new = Query()` (which also resets `new.url` to the default
endpoint) followed by `new.query = self.query.copy()` — a shallow dict copy,
so every binding, including the `range` and `symbols` addresses, is shared. -/
def Query.copy (q : Query) (st : PyState) : Query × PyState :=
  let (new, st') := Query.init st
  ({ new with query := q.query }, st')

/-- The JSON document `requests.post(self.url, json=self.query)` would send:
the dict with its shared containers dereferenced. -/
structure Payload where
  markets : Option (List String)
  symbols : Option SymbolsDict
  options : Option (List (String × String))
  columns : Option (List String)
  filter : Option (List FilterOperationDict)
  filter2 : Option JVal
  sort : Option SortByDict
  preset : Option String
  range : Option (List Int)

def Query.payload (q : Query) (st : PyState) : Payload :=
  { markets := q.query.markets,
    symbols := q.query.symbols.map st.getSym,
    options := q.query.options,
    columns := q.query.columns,
    filter := q.query.filter,
    filter2 := q.query.filter2,
    sort := q.query.sort,
    preset := q.query.preset,
    range := q.query.range.map st.getRange }

/-- One row of the scanner response: `{'s': ticker, 'd': [values...]}`. -/
structure ResponseRow where
  s : String
  d : List SVal

/-- The HTTP response at the transport boundary, as the spec describes it:
a success flag (`r.ok`), the status reason and body text, and the decoded
JSON fields used on success. -/
structure Response where
  ok : Bool
  reason : String
  text : String
  totalCount : Nat
  data : List ResponseRow

/-- The tabular result: column names and positionally aligned rows. -/
structure DataFrame where
  columns : List String
  rows : List (List SVal)

/-- `Query.get_scanner_data`: setdefaults `range`, posts, and on a non-ok
response appends `'\n Body: ' + r.text + '\n'` to `r.reason` before
`raise_for_status()` — the raised error's message carries that mutated
reason (the `requests` collaborator is modelled at its interface, per spec
sections 6 and 7).  On success it returns the total count and the rows
zipped against `['ticker', *columns]`. -/
def Query.get_scanner_data (q : Query) (st : PyState) (r : Response) :
    Except String (Nat × DataFrame) × Query × PyState :=
  let (_, q1, st1) := q.rangeSetdefault st
  if r.ok then
    (.ok (r.totalCount,
      { columns := "ticker" :: q1.query.columns.getD [],
        rows := r.data.map fun row => SVal.str row.s :: row.d }), q1, st1)
  else
    (.error (r.reason ++ "\n Body: " ++ r.text ++ "\n"), q1, st1)

/-- One call in a sequence of scope selections. -/
inductive ScopeCall where
  | markets (ms : List String)
  | tickers (ts : List String)
  | index (ixs : List String)

def applyScope (c : ScopeCall) : Query × PyState → Query × PyState
  | (q, st) =>
    match c with
    | .markets ms => q.set_markets st ms
    | .tickers ts => q.set_tickers st ts
    | .index ixs => q.set_index st ixs

def applyScopes (cs : List ScopeCall) (qst : Query × PyState) : Query × PyState :=
  cs.foldl (fun acc c => applyScope c acc) qst

lemma list_getD_set_self {α : Type} (l : List α) (i : Nat) (x d : α) (h : i < l.length) :
    (l.set i x).getD i d = x := by
  rw [List.getD_eq_getElem _ _ (by simpa using h)]
  simp [List.getElem_set_self]

lemma list_getD_set_ne {α : Type} (l : List α) (i : Nat) (x d : α) (j : Nat) (hne : j ≠ i) :
    (l.set i x).getD j d = l.getD j d := by
  simp [List.getD_eq_getD_get?, List.getElem?_set_ne (Ne.symm hne)]

lemma list_getD_append_self {α : Type} (l : List α) (c d : α) :
    (l ++ [c]).getD l.length d = c := by
  rw [List.getD_append_right _ _ _ _ le_rfl]
  simp

/-- Observation used to separate JSON objects: whether the object carries an
`operation` key. -/
def obsOperandKey (j : JVal) : Bool :=
  match j.get "operands" with
  | some (.jarr xs) => (xs.getD 1 .null).hasKey "operation"
  | _ => false

/-- Concrete predicate `Column('close') > 2` used in the C4 counterexample. -/
def c4p1 : JVal := (Column.gt ⟨"close"⟩ (.val (.num 2))).toJVal

/-- Concrete predicate `Column('close') < 10` used in the C4 counterexample. -/
def c4p2 : JVal := (Column.lt ⟨"close"⟩ (.val (.num 10))).toJVal

/-- Concrete predicate `Column('type') == 'stock'` used in the C4
counterexample. -/
def c4p3 : JVal := (Column.eq ⟨"type"⟩ (.val (.str "stock"))).toJVal

/-- The structure claim C4 says `And(p1, Or(p2, p3))` yields, read literally as
dicts: no `operation` envelope at the top level and none around the nested
`or` node. -/
def c4claimed : JVal :=
  .jobj [("operator", .jstr "and"),
    ("operands", .jarr
      [.jobj [("expression", c4p1)],
       .jobj [("operator", .jstr "or"),
         ("operands", .jarr [.jobj [("expression", c4p2)], .jobj [("expression", c4p3)]])]])]

/-- C10 (confirmed): `Column.__eq__` and `Column.__ne__` always return the
predicate dicts `{'left': c.name, 'operation': 'equal'/'nequal', 'right':
extract(v)}`, where `extract(v)` is `v.name` when `v` is a `Column` and `v`
itself otherwise; in particular comparing a column against a column of the
same name still yields such a dict.  The return type of the embedding is
`FilterOperationDict`, never `Bool`, so no boolean ever results and native
equality comparison between `Column` objects is unavailable. -/
theorem c10_eq_ne_predicates (c : Column) (v : ColOperand) :
    c.eq v = { left := c.name, operation := "equal",
               right := .scalar (Column._extract_name v) }
    ∧ c.ne v = { left := c.name, operation := "nequal",
                 right := .scalar (Column._extract_name v) }
    ∧ (∀ c' : Column, Column._extract_name (.col c') = .str c'.name)
    ∧ (∀ x : SVal, Column._extract_name (.val x) = x)
    ∧ c.eq (.col c) = { left := c.name, operation := "equal",
                        right := .scalar (.str c.name) } :=
  ⟨rfl, rfl, fun _ => rfl, fun _ => rfl, rfl⟩

/-- C3 counterexample: the only operation producing `in_range%` is
`between_pct`, a separate method (the source's `above_pct` takes exactly one
threshold and has no `p2` parameter), and it does NOT sort its thresholds:
`between_pct('EMA200', 1.5, 1.2)` keeps caller order `[EMA200, 1.5, 1.2]`,
not the ascending `[EMA200, 1.2, 1.5]` the claim requires. -/
theorem c3_counterexample :
    Column.between_pct ⟨"close"⟩ (.val (.str "EMA200")) 1.5 (some 1.2)
      = { left := "close", operation := "in_range%",
          right := .vlist [.str "EMA200", .num 1.5, .num 1.2] }
    ∧ (Column.between_pct ⟨"close"⟩ (.val (.str "EMA200")) 1.5 (some 1.2)).right
      ≠ .vlist [.str "EMA200", .num 1.2, .num 1.5] :=
  ⟨rfl, by norm_num [Column.between_pct]⟩

/-- C3 (amended): `above_pct`/`below_pct` take exactly one threshold and
always yield operation `above%`/`below%` with `right == [col, p1]`; the
percent-range form is the separate method `between_pct(col, p1, p2=None)`,
which yields `in_range%` with `right == [col, p1, p2]` in caller order —
unsorted, and with `None` in the third slot when `p2` is absent. -/
theorem c3_pct_operations (self : Column) (column : ColOperand) (pct pct1 : Rat)
    (pct2 : Option Rat) :
    self.above_pct column pct
      = { left := self.name, operation := "above%",
          right := .vlist [Column._extract_name column, .num pct] }
    ∧ self.below_pct column pct
      = { left := self.name, operation := "below%",
          right := .vlist [Column._extract_name column, .num pct] }
    ∧ self.between_pct column pct1 pct2
      = { left := self.name, operation := "in_range%",
          right := .vlist [Column._extract_name column, .num pct1,
            match pct2 with
            | some p => .num p
            | none => .null] } :=
  ⟨rfl, rfl, rfl⟩

/-- C4 counterexample: at the concrete predicates `close > 2`, `close < 10`,
`type == 'stock'`, the value `And(p1, Or(p2, p3))` is not the claimed dict:
the combinator's result is wrapped as `{'operation': ...}` (it has an
`operation` key, not `operator`/`operands` at top level), and even after
`where2` strips the outer wrapper, the nested `or` operand still carries its
own `{'operation': ...}` envelope, which the claimed structure lacks. -/
theorem c4_counterexample :
    And [c4p1, Or [c4p2, c4p3]] ≠ c4claimed
    ∧ ((Query.init ⟨[], []⟩).1.where2 (Query.init ⟨[], []⟩).2
        (And [c4p1, Or [c4p2, c4p3]])).1.query.filter2 ≠ some c4claimed := by
  constructor
  · intro h
    have h2 := congrArg (fun j => JVal.hasKey j "operation") h
    exact absurd h2 (by decide)
  · intro h
    have h1 : ((Query.init ⟨[], []⟩).1.where2 (Query.init ⟨[], []⟩).2
        (And [c4p1, Or [c4p2, c4p3]])).1.query.filter2
        = some (.jobj [("operator", .jstr "and"),
            ("operands", .jarr [.jobj [("expression", c4p1)], Or [c4p2, c4p3]])]) := rfl
    rw [h1] at h
    have h2 := congrArg (fun o => (o.getD .null |> obsOperandKey)) h
    exact absurd h2 (by decide)

/-- C4 (amended): `And(p1, Or(p2, p3))` yields
`{'operation': {'operator': 'and', 'operands': [{'expression': p1},
{'operation': {'operator': 'or', 'operands': [{'expression': p2},
{'expression': p3}]}}]}}` — each predicate operand (recognised by its `left`
key) is wrapped as `{'expression': ...}`, each nested combinator result is
passed through unchanged, still inside its own `operation` envelope, the
operator is fixed by the function called and operand order is preserved;
`where2` strips only the outermost `operation` wrapper when storing
`filter2`. -/
theorem c4_and_or_structure (p1 p2 p3 : FilterOperationDict) (q : Query) (st : PyState) :
    And [p1.toJVal, Or [p2.toJVal, p3.toJVal]]
      = .jobj [("operation", .jobj [("operator", .jstr "and"),
          ("operands", .jarr
            [.jobj [("expression", p1.toJVal)],
             .jobj [("operation", .jobj [("operator", .jstr "or"),
               ("operands", .jarr
                 [.jobj [("expression", p2.toJVal)],
                  .jobj [("expression", p3.toJVal)]])])]])])]
    ∧ (q.where2 st (And [p1.toJVal, Or [p2.toJVal, p3.toJVal]])).1.query.filter2
      = some (.jobj [("operator", .jstr "and"),
          ("operands", .jarr [.jobj [("expression", p1.toJVal)], Or [p2.toJVal, p3.toJVal]])])
    ∧ (∀ (exprs : List JVal) (op : String),
        _impl_and_or_chaining exprs op
          = .jobj [("operation", .jobj [("operator", .jstr op),
              ("operands", .jarr (exprs.map fun e =>
                if e.hasKey "left" then .jobj [("expression", e)] else e))])]) :=
  ⟨rfl, rfl, fun _ _ => rfl⟩

/-- C2 counterexample: for `q = Query().set_markets('italy')`, whose URL is
the italy endpoint, `q.copy()` has URL
`https://scanner.tradingview.com/america/scan` — the default from
`Query.__init__`, not `q`'s URL: `copy` never copies `self.url`. -/
theorem c2_counterexample :
    (((Query.init ⟨[], []⟩).1.set_markets (Query.init ⟨[], []⟩).2 ["italy"]).1.copy
        ((Query.init ⟨[], []⟩).1.set_markets (Query.init ⟨[], []⟩).2 ["italy"]).2).1.url
      ≠ ((Query.init ⟨[], []⟩).1.set_markets (Query.init ⟨[], []⟩).2 ["italy"]).1.url
    ∧ (((Query.init ⟨[], []⟩).1.set_markets (Query.init ⟨[], []⟩).2 ["italy"]).1.copy
        ((Query.init ⟨[], []⟩).1.set_markets (Query.init ⟨[], []⟩).2 ["italy"]).2).1.url
      = "https://scanner.tradingview.com/america/scan"
    ∧ ((Query.init ⟨[], []⟩).1.set_markets (Query.init ⟨[], []⟩).2 ["italy"]).1.url
      = URL_format "italy" :=
  ⟨by decide, rfl, rfl⟩

lemma set_tickers_payload_markets (q : Query) (st : PyState) (ts : List String) :
    ((q.set_tickers st ts).1.payload (q.set_tickers st ts).2).markets = none := by
  cases h : q.query.symbols <;>
    simp [Query.set_tickers, Query.symbolsSetdefault, Query.payload, h]

lemma set_tickers_url (q : Query) (st : PyState) (ts : List String) :
    (q.set_tickers st ts).1.url = URL_format "global" := by
  cases h : q.query.symbols <;>
    simp [Query.set_tickers, Query.symbolsSetdefault, h]

lemma set_index_payload_markets (q : Query) (st : PyState) (ixs : List String) :
    ((q.set_index st ixs).1.payload (q.set_index st ixs).2).markets = none := by
  cases h : q.query.symbols <;>
    simp [Query.set_index, Query.symbolsSetdefault, Query.payload, h]

/-- C1 counterexample: on a fresh builder, `set_tickers('NYSE:GME')` followed
by `set_markets('italy')` — so the last-selected scope is Markets — compiles
a payload that still carries the earlier tickers: `markets == ['italy']` AND
`symbols['tickers'] == ['NYSE:GME']`.  `set_markets` never clears the
`tickers`/`symbolset` entries, so scope selection is not mutually exclusive
in the direction the claim states. -/
theorem c1_counterexample :
    ((applyScopes [.tickers ["NYSE:GME"], .markets ["italy"]] (Query.init ⟨[], []⟩)).1.payload
      (applyScopes [.tickers ["NYSE:GME"], .markets ["italy"]] (Query.init ⟨[], []⟩)).2).markets
      = some ["italy"]
    ∧ ((applyScopes [.tickers ["NYSE:GME"], .markets ["italy"]] (Query.init ⟨[], []⟩)).1.payload
        (applyScopes [.tickers ["NYSE:GME"], .markets ["italy"]] (Query.init ⟨[], []⟩)).2).symbols.map
        SymbolsDict.tickers = some (some ["NYSE:GME"]) :=
  ⟨rfl, rfl⟩

/-- C1 (amended): scope exclusivity holds in one direction only.  After any
sequence of scope calls whose last call is `set_tickers` or `set_index`, the
compiled payload has no `markets` key (both methods pop it and nothing
re-adds it); but `set_markets` leaves the `symbols` entry of the payload
completely unchanged, so `tickers`/`symbolset` values from an earlier
`set_tickers`/`set_index` survive a later `set_markets`. -/
theorem c1_scope_partial_exclusivity (q : Query) (st : PyState) (cs : List ScopeCall)
    (ts ixs ms : List String) :
    ((applyScopes (cs ++ [.tickers ts]) (q, st)).1.payload
        (applyScopes (cs ++ [.tickers ts]) (q, st)).2).markets = none
    ∧ ((applyScopes (cs ++ [.index ixs]) (q, st)).1.payload
        (applyScopes (cs ++ [.index ixs]) (q, st)).2).markets = none
    ∧ ((q.set_markets st ms).1.payload (q.set_markets st ms).2).symbols
      = (q.payload st).symbols := by
  refine ⟨?_, ?_, ?_⟩
  · have hsplit : applyScopes (cs ++ [ScopeCall.tickers ts]) (q, st)
        = applyScope (.tickers ts) (applyScopes cs (q, st)) := by
      simp [applyScopes, List.foldl_append]
    rw [hsplit]
    obtain ⟨q', st'⟩ := applyScopes cs (q, st)
    exact set_tickers_payload_markets q' st' ts
  · have hsplit : applyScopes (cs ++ [ScopeCall.index ixs]) (q, st)
        = applyScope (.index ixs) (applyScopes cs (q, st)) := by
      simp [applyScopes, List.foldl_append]
    rw [hsplit]
    obtain ⟨q', st'⟩ := applyScopes cs (q, st)
    exact set_index_payload_markets q' st' ixs
  · rcases ms with _ | ⟨m, _ | ⟨m2, rest⟩⟩ <;> rfl

/-- C5 (confirmed): for every builder and any argument lists, calling
`set_tickers(...)` after `set_markets(...)` removes the `markets` key from
the compiled payload and sets the request URL to the global endpoint. -/
theorem c5_set_tickers_after_set_markets (q : Query) (st : PyState) (ms ts : List String) :
    (((q.set_markets st ms).1.set_tickers (q.set_markets st ms).2 ts).1.payload
        ((q.set_markets st ms).1.set_tickers (q.set_markets st ms).2 ts).2).markets = none
    ∧ ((q.set_markets st ms).1.set_tickers (q.set_markets st ms).2 ts).1.url
      = URL_format "global" :=
  ⟨set_tickers_payload_markets _ _ _, set_tickers_url _ _ _⟩

/-- C6 (confirmed): `set_markets` with exactly one market `m` routes to `m`'s
dedicated endpoint; with zero or more than one market it routes to the shared
global endpoint; in both cases the payload's `markets` key becomes the given
list. -/
theorem c6_set_markets_routing (q : Query) (st : PyState) (ms : List String) :
    ((q.set_markets st ms).1.payload (q.set_markets st ms).2).markets = some ms
    ∧ (∀ m, ms = [m] → (q.set_markets st ms).1.url = URL_format m)
    ∧ (ms.length ≠ 1 → (q.set_markets st ms).1.url = URL_format "global") := by
  rcases ms with _ | ⟨m, _ | ⟨m2, rest⟩⟩
  · exact ⟨rfl, fun m h => by simp at h, fun _ => rfl⟩
  · refine ⟨rfl, fun m' h => ?_, fun h => absurd rfl h⟩
    injection h with h1 _
    subst h1
    rfl
  · exact ⟨rfl, fun m' h => by simp at h, fun _ => rfl⟩

/-- Witness for C6 at concrete inputs: `set_markets('italy')` routes to the
italy endpoint, `set_markets('italy', 'america')` to the global one. -/
theorem c6_set_markets_routing_witness :
    ((Query.init ⟨[], []⟩).1.set_markets (Query.init ⟨[], []⟩).2 ["italy"]).1.url
      = URL_format "italy"
    ∧ ((Query.init ⟨[], []⟩).1.set_markets (Query.init ⟨[], []⟩).2
        ["italy", "america"]).1.url = URL_format "global" :=
  ⟨(c6_set_markets_routing (Query.init ⟨[], []⟩).1 (Query.init ⟨[], []⟩).2
      ["italy"]).2.1 "italy" rfl,
   (c6_set_markets_routing (Query.init ⟨[], []⟩).1 (Query.init ⟨[], []⟩).2
      ["italy", "america"]).2.2 (by decide)⟩

/-- C2 (amended): `copy()` returns a new builder whose dict is a shallow
duplicate of `q`'s (every key binding, including the shared `range` and
`symbols` container addresses, is the same), but whose endpoint URL is reset
to the default `https://scanner.tradingview.com/america/scan` rather than
preserving `q`'s URL. -/
theorem c2_copy_shallow_url_reset (q : Query) (st : PyState) :
    (q.copy st).1.query = q.query
    ∧ (q.copy st).1.url = "https://scanner.tradingview.com/america/scan" :=
  ⟨rfl, rfl⟩

lemma payload_range_bound (q : Query) (st : PyState) (a b : Int)
    (h : (q.payload st).range = some [a, b]) :
    ∃ ra, q.query.range = some ra ∧ st.getRange ra = [a, b]
      ∧ ra < st.rangeCells.length := by
  cases hr : q.query.range with
  | none => simp [Query.payload, hr] at h
  | some ra =>
    refine ⟨ra, rfl, ?_, ?_⟩
    · simpa [Query.payload, hr] using h
    · by_contra hb
      push_neg at hb
      have he : st.getRange ra = [] := by
        show st.rangeCells.getD ra [] = []
        exact List.getD_eq_default _ _ hb
      have h2 : st.getRange ra = [a, b] := by simpa [Query.payload, hr] using h
      rw [he] at h2
      exact absurd h2 (by simp)

lemma offset_range_shared (q q2 : Query) (st : PyState) (n a b : Int)
    (hshare : q2.query.range = q.query.range)
    (h : (q.payload st).range = some [a, b]) :
    (q.payload (q2.offset st n).2).range = some [n, b] := by
  obtain ⟨ra, hr, hc, hb⟩ := payload_range_bound q st a b h
  have hr2 : q2.query.range = some ra := by rw [hshare, hr]
  have heq : q2.offset st n = (q2, st.setRange ra (([a, b]).set 0 n)) := by
    simp [Query.offset, Query.rangeSetdefault, hr2, hc]
  rw [heq]
  simp [Query.payload, hr, PyState.setRange, PyState.getRange]
  rw [List.getElem?_set_eq_of_lt _ hb]
  rfl

lemma limit_range_shared (q q2 : Query) (st : PyState) (n a b : Int)
    (hshare : q2.query.range = q.query.range)
    (h : (q.payload st).range = some [a, b]) :
    (q.payload (q2.limit st n).2).range = some [a, n] := by
  obtain ⟨ra, hr, hc, hb⟩ := payload_range_bound q st a b h
  have hr2 : q2.query.range = some ra := by rw [hshare, hr]
  have heq : q2.limit st n = (q2, st.setRange ra (([a, b]).set 1 n)) := by
    simp [Query.limit, Query.rangeSetdefault, hr2, hc]
  rw [heq]
  simp [Query.payload, hr, PyState.setRange, PyState.getRange]
  rw [List.getElem?_set_eq_of_lt _ hb]
  rfl

lemma offset_fst (q : Query) (st : PyState) (n : Int) (hne : q.query.range ≠ none) :
    (q.offset st n).1 = q := by
  cases hr : q.query.range with
  | none => exact absurd hr hne
  | some ra => simp [Query.offset, Query.rangeSetdefault, hr]

lemma offset_range (q : Query) (st : PyState) (n a b : Int)
    (h : (q.payload st).range = some [a, b]) :
    ((q.offset st n).1.payload (q.offset st n).2).range = some [n, b] := by
  obtain ⟨ra, hr, _, _⟩ := payload_range_bound q st a b h
  have h1 : (q.offset st n).1 = q := offset_fst q st n (by rw [hr]; exact fun hx => by cases hx)
  rw [h1]
  exact offset_range_shared q q st n a b rfl h

lemma limit_fst (q : Query) (st : PyState) (n : Int) (hne : q.query.range ≠ none) :
    (q.limit st n).1 = q := by
  cases hr : q.query.range with
  | none => exact absurd hr hne
  | some ra => simp [Query.limit, Query.rangeSetdefault, hr]

lemma limit_range (q : Query) (st : PyState) (n a b : Int)
    (h : (q.payload st).range = some [a, b]) :
    ((q.limit st n).1.payload (q.limit st n).2).range = some [a, n] := by
  obtain ⟨ra, hr, _, _⟩ := payload_range_bound q st a b h
  have h1 : (q.limit st n).1 = q := limit_fst q st n (by rw [hr]; exact fun hx => by cases hx)
  rw [h1]
  exact limit_range_shared q q st n a b rfl h

lemma init_payload_range (st0 : PyState) :
    ((Query.init st0).1.payload (Query.init st0).2).range = some [0, 50] := by
  simp [Query.init, PyState.allocRange, PyState.allocSym, Query.payload,
    PyState.getRange, DEFAULT_RANGE, list_getD_append_self]

/-- C7 (confirmed): on a fresh builder, `offset(5)` then `limit(15)` compiles
to `range == [5, 15]`; only `limit(15)` compiles to `range == [0, 15]`; with
neither called the range defaults to `[0, 50]`; and in general, on any
builder whose compiled range is `[a, b]`, `offset(n)` yields `[n, b]` and
`limit(n)` yields `[a, n]` — each sets one bound without changing the
other. -/
theorem c7_pagination (st0 : PyState) (q : Query) (st : PyState) (a b n : Int) :
    ((((Query.init st0).1.offset (Query.init st0).2 5).1.limit
        ((Query.init st0).1.offset (Query.init st0).2 5).2 15).1.payload
        (((Query.init st0).1.offset (Query.init st0).2 5).1.limit
          ((Query.init st0).1.offset (Query.init st0).2 5).2 15).2).range = some [5, 15]
    ∧ (((Query.init st0).1.limit (Query.init st0).2 15).1.payload
        ((Query.init st0).1.limit (Query.init st0).2 15).2).range = some [0, 15]
    ∧ ((Query.init st0).1.payload (Query.init st0).2).range = some [0, 50]
    ∧ ((q.payload st).range = some [a, b] →
        ((q.offset st n).1.payload (q.offset st n).2).range = some [n, b]
        ∧ ((q.limit st n).1.payload (q.limit st n).2).range = some [a, n]) := by
  refine ⟨?_, ?_, init_payload_range st0,
    fun h => ⟨offset_range q st n a b h, limit_range q st n a b h⟩⟩
  · exact limit_range _ _ 15 5 50 (offset_range _ _ 5 0 50 (init_payload_range st0))
  · exact limit_range _ _ 15 0 50 (init_payload_range st0)

/-- Witness for C7 at a concrete input: `offset(7)` on a fresh builder built
over the empty store compiles to `range == [7, 50]`. -/
theorem c7_pagination_witness :
    (((Query.init ⟨[], []⟩).1.offset (Query.init ⟨[], []⟩).2 7).1.payload
      ((Query.init ⟨[], []⟩).1.offset (Query.init ⟨[], []⟩).2 7).2).range = some [7, 50] :=
  ((c7_pagination ⟨[], []⟩ (Query.init ⟨[], []⟩).1 (Query.init ⟨[], []⟩).2 0 50 7).2.2.2
    rfl).1

/-- C8 (confirmed): on a non-success response `get_scanner_data` fails with an
error instead of returning a result, and the error's message contains the raw
response body text (the code appends `'\n Body: ' + r.text + '\n'` to the
status reason before `raise_for_status()`); a success response produces the
`(totalCount, dataframe)` result and no error. -/
theorem c8_error_surface (q : Query) (st : PyState) (r : Response) :
    (r.ok = false →
      (q.get_scanner_data st r).1
        = .error (r.reason ++ "\n Body: " ++ r.text ++ "\n")
      ∧ ∃ pre post, r.reason ++ "\n Body: " ++ r.text ++ "\n" = pre ++ (r.text ++ post))
    ∧ (r.ok = true →
      (q.get_scanner_data st r).1
        = .ok (r.totalCount,
            { columns := "ticker" :: q.query.columns.getD [],
              rows := r.data.map fun row => SVal.str row.s :: row.d })) := by
  constructor
  · intro hok
    refine ⟨?_, ⟨r.reason ++ "\n Body: ", "\n", by simp [String.append_assoc]⟩⟩
    cases hr : q.query.range <;>
      simp [Query.get_scanner_data, Query.rangeSetdefault, hr, hok]
  · intro hok
    cases hr : q.query.range <;>
      simp [Query.get_scanner_data, Query.rangeSetdefault, hr, hok]

/-- Witness for C8 at concrete responses: a 404-style response with body
`BODYTEXT` fails with that body in the message; an ok response returns the
count and the dataframe. -/
theorem c8_error_surface_witness :
    ((Query.init ⟨[], []⟩).1.get_scanner_data (Query.init ⟨[], []⟩).2
        ⟨false, "404 Not Found", "BODYTEXT", 0, []⟩).1
      = .error ("404 Not Found" ++ "\n Body: " ++ "BODYTEXT" ++ "\n")
    ∧ ((Query.init ⟨[], []⟩).1.get_scanner_data (Query.init ⟨[], []⟩).2
        ⟨true, "OK", "", 3, []⟩).1
      = .ok (3, { columns := ["ticker", "name", "close", "volume", "market_cap_basic"],
                  rows := [] }) :=
  ⟨((c8_error_surface (Query.init ⟨[], []⟩).1 (Query.init ⟨[], []⟩).2
      ⟨false, "404 Not Found", "BODYTEXT", 0, []⟩).1 rfl).1,
   by simpa using (c8_error_surface (Query.init ⟨[], []⟩).1 (Query.init ⟨[], []⟩).2
      ⟨true, "OK", "", 3, []⟩).2 rfl⟩

/-- C9 (confirmed): after `q2 = q.copy()` the two builders bind the same
`range` list address, so `limit(n)`/`offset(n)` on `q2` mutate the shared
list in place and `q`'s compiled range changes too (from `[a, b]` to `[a, n]`
resp. `[n, b]`), even though `q`'s own key bindings were never touched; by
contrast `where`/`select`/`order_by` on `q2` only rebind keys in `q2`'s dict
and leave `q`'s compiled payload exactly as it was. -/
theorem c9_copy_aliasing (q : Query) (st : PyState) (a b n : Int)
    (preds : List FilterOperationDict) (cols : List ColumnOrStr) (colm : ColumnOrStr)
    (asc nf : Bool) (h : (q.payload st).range = some [a, b]) :
    (q.copy st).1.query.range = q.query.range
    ∧ (q.payload (q.copy st).2).range = some [a, b]
    ∧ (q.payload ((q.copy st).1.limit (q.copy st).2 n).2).range = some [a, n]
    ∧ (q.payload ((q.copy st).1.offset (q.copy st).2 n).2).range = some [n, b]
    ∧ q.payload ((q.copy st).1.where' (q.copy st).2 preds).2 = q.payload (q.copy st).2
    ∧ q.payload ((q.copy st).1.select (q.copy st).2 cols).2 = q.payload (q.copy st).2
    ∧ q.payload ((q.copy st).1.order_by (q.copy st).2 colm asc nf).2
      = q.payload (q.copy st).2 := by
  obtain ⟨ra, hr, hc, hb⟩ := payload_range_bound q st a b h
  have h2 : (q.payload (q.copy st).2).range = some [a, b] := by
    simp [Query.copy, Query.init, PyState.allocRange, PyState.allocSym,
      Query.payload, PyState.getRange, hr]
    rw [List.getElem?_append_left hb]
    simpa [PyState.getRange, List.getD_eq_getElem?_getD] using hc
  refine ⟨rfl, h2, ?_, ?_, rfl, rfl, rfl⟩
  · exact limit_range_shared q (q.copy st).1 (q.copy st).2 n a b rfl h2
  · exact offset_range_shared q (q.copy st).1 (q.copy st).2 n a b rfl h2

/-- Witness for C9 at a concrete input: copying a fresh builder and calling
`limit(15)` on the copy changes the original's compiled range to `[0, 15]`. -/
theorem c9_copy_aliasing_witness :
    ((Query.init ⟨[], []⟩).1.payload
      (((Query.init ⟨[], []⟩).1.copy (Query.init ⟨[], []⟩).2).1.limit
        ((Query.init ⟨[], []⟩).1.copy (Query.init ⟨[], []⟩).2).2 15).2).range
      = some [0, 15] :=
  (c9_copy_aliasing (Query.init ⟨[], []⟩).1 (Query.init ⟨[], []⟩).2 0 50 15
    [] [] (.str "name") true false rfl).2.2.1

end TVS
